import Mathlib

/-!
Verification of the Document Insights Generator pipeline.

The program is a single-file application whose core pipeline is:
text extraction (PDF / DOCX / plain text, dispatched on MIME type and
filename extension), prompt assembly with a hard 12,000-character
truncation, a remote completion call with a four-way error taxonomy,
and two downloadable reports (plain text and markdown).

Python strings are modelled as Lean `String` (a list of Unicode code
points, matching Python's `len` and slicing semantics); raw file bytes
are `List Nat` (each entry one byte).  The external collaborators
(PDF/DOCX parsing libraries, the remote completion service) are
modelled as oracle parameters: the parse outcome and the service
outcome are inputs to the embedded functions, exactly at the points
where the program consults them.
-/

/-- `len(s)` in Python: number of code points. -/
def pyLen (s : String) : Nat := s.data.length

/-- `s[:n]` in Python: the first `n` code points. -/
def pyTake (s : String) (n : Nat) : String := ⟨s.data.take n⟩

/-- `s.startswith(p)` in Python. -/
def pyStartsWith (s p : String) : Bool := decide (s.data.take p.data.length = p.data)

/-- `s.endswith(p)` in Python. -/
def pyEndsWith (s p : String) : Bool :=
  decide (s.data.drop (s.data.length - p.data.length) = p.data ∧ p.data.length ≤ s.data.length)

/-- The characters Python's `str.strip()` removes (ASCII whitespace). -/
def isPySpace (c : Char) : Bool :=
  c = ' ' || c = '\t' || c = '\n' || c = '\r' || c = '\x0b' || c = '\x0c'

/-- `str.strip()` on the underlying character list: drop whitespace from
both ends. -/
def pyStripL (l : List Char) : List Char :=
  (((l.dropWhile isPySpace).reverse).dropWhile isPySpace).reverse

/-- `s.strip()` in Python. -/
def pyStrip (s : String) : String := ⟨pyStripL s.data⟩

/-- `sep.join(xs)` in Python. -/
def pyJoin (sep : String) : List String → String
  | [] => ""
  | [a] => a
  | a :: b :: rest => a ++ sep ++ pyJoin sep (b :: rest)

/-- `t` is a prefix of `s` (as character lists). -/
def isPrefixL (t s : List Char) : Bool := decide (s.take t.length = t)

/-- `t` occurs as a contiguous substring of `s` (as character lists):
Python's `t in s`. -/
def isSubL (t : List Char) : List Char → Bool
  | [] => isPrefixL t []
  | c :: s => isPrefixL t (c :: s) || isSubL t s

/-- `t in s` in Python: substring containment. -/
def isSubstr (t s : String) : Bool := isSubL t.data s.data

-- Basic facts about the string model.

theorem strExt {a b : String} (h : a.data = b.data) : a = b := by
  cases a; cases b; exact congrArg String.mk h

theorem strData_append (a b : String) : (a ++ b).data = a.data ++ b.data := by
  cases a; cases b; rfl

theorem strAppend_assoc (a b c : String) : a ++ b ++ c = a ++ (b ++ c) := by
  apply strExt; simp [strData_append]

theorem pyLen_append (a b : String) : pyLen (a ++ b) = pyLen a + pyLen b := by
  simp [pyLen, strData_append]

theorem pyLen_take (s : String) (n : Nat) : pyLen (pyTake s n) = min n (pyLen s) := by
  simp [pyLen, pyTake]

-- UTF-8 decoding with errors ignored (CPython `bytes.decode('utf-8', errors='ignore')`):
-- valid sequences become code points, invalid byte sequences are dropped.

/-- A UTF-8 continuation byte. -/
def isCont (b : Nat) : Bool := 0x80 ≤ b && b ≤ 0xBF

/-- Allowed first continuation byte after a 3-byte lead (excludes
overlong encodings and surrogates, as CPython does). -/
def cont1ok3 (b c : Nat) : Bool :=
  if b = 0xE0 then 0xA0 ≤ c && c ≤ 0xBF
  else if b = 0xED then 0x80 ≤ c && c ≤ 0x9F
  else isCont c

/-- Allowed first continuation byte after a 4-byte lead (excludes
overlong encodings and values above U+10FFFF, as CPython does). -/
def cont1ok4 (b c : Nat) : Bool :=
  if b = 0xF0 then 0x90 ≤ c && c ≤ 0xBF
  else if b = 0xF4 then 0x80 ≤ c && c ≤ 0x8F
  else isCont c

/-- Decode a byte list as UTF-8, dropping undecodable byte sequences
(the `errors='ignore'` handler): an invalid lead byte is skipped; a
sequence whose continuation byte is invalid is skipped up to the
offending byte, which is then reconsidered as a new lead. -/
def utf8DecodeIgnore : List Nat → List Char
  | [] => []
  | b :: rest =>
    if b ≤ 0x7F then Char.ofNat b :: utf8DecodeIgnore rest
    else if 0xC2 ≤ b && b ≤ 0xDF then
      match rest with
      | [] => []
      | c1 :: rest1 =>
        if isCont c1 then
          Char.ofNat ((b - 0xC0) * 0x40 + (c1 - 0x80)) :: utf8DecodeIgnore rest1
        else utf8DecodeIgnore (c1 :: rest1)
    else if 0xE0 ≤ b && b ≤ 0xEF then
      match rest with
      | [] => []
      | c1 :: rest1 =>
        if cont1ok3 b c1 then
          match rest1 with
          | [] => []
          | c2 :: rest2 =>
            if isCont c2 then
              Char.ofNat ((b - 0xE0) * 0x1000 + (c1 - 0x80) * 0x40 + (c2 - 0x80)) ::
                utf8DecodeIgnore rest2
            else utf8DecodeIgnore (c2 :: rest2)
        else utf8DecodeIgnore (c1 :: rest1)
    else if 0xF0 ≤ b && b ≤ 0xF4 then
      match rest with
      | [] => []
      | c1 :: rest1 =>
        if cont1ok4 b c1 then
          match rest1 with
          | [] => []
          | c2 :: rest2 =>
            if isCont c2 then
              match rest2 with
              | [] => []
              | c3 :: rest3 =>
                if isCont c3 then
                  Char.ofNat ((b - 0xF0) * 0x40000 + (c1 - 0x80) * 0x1000 +
                      (c2 - 0x80) * 0x40 + (c3 - 0x80)) :: utf8DecodeIgnore rest3
                else utf8DecodeIgnore (c3 :: rest3)
            else utf8DecodeIgnore (c2 :: rest2)
        else utf8DecodeIgnore (c1 :: rest1)
    else utf8DecodeIgnore rest

-- ## The program model (from src/4dc66906.py)

/-- A Python exception reaching one of the handlers of the program:
the three `openai.error` classes the program names, or any other
exception.  `str(e)` is modelled by `excStr`. -/
inductive PyExc
  | authentication
  | rateLimit
  | invalidRequest (msg : String)
  | other (msg : String)
deriving DecidableEq

/-- Python `str(e)` for the modelled exceptions. -/
def excStr : PyExc → String
  | .authentication => "AuthenticationError"
  | .rateLimit => "RateLimitError"
  | .invalidRequest m => m
  | .other m => m

/-- `isinstance(e, openai.error.AuthenticationError)`: which exceptions
the first `except` clause of `generate_insights` catches. -/
def catchesAuthentication : PyExc → Bool
  | .authentication => true
  | _ => false

/-- Which exceptions the `except openai.error.RateLimitError` clause catches. -/
def catchesRateLimit : PyExc → Bool
  | .rateLimit => true
  | _ => false

/-- Which exceptions the `except openai.error.InvalidRequestError` clause catches. -/
def catchesInvalidRequest : PyExc → Bool
  | .invalidRequest _ => true
  | _ => false

/-- Which exceptions the final `except Exception` clause catches: every
Python exception derives from `Exception`. -/
def catchesException : PyExc → Bool
  | _ => true

/-- Outcome of one call to the remote completion service
(`openai.ChatCompletion.create` followed by reading
`response.choices[0].message.content`): either the returned text, or a
raised exception.  The service is an external collaborator, so its
outcome is an oracle input. -/
inductive ApiOutcome
  | success (text : String)
  | raised (e : PyExc)

/-- The remote call as a fallible computation. -/
def apiCall : ApiOutcome → Except PyExc String
  | .success t => Except.ok t
  | .raised e => Except.error e

/-- `max_chars = 12000` in `generate_insights`. -/
def max_chars : Nat := 12000

/-- The truncation marker appended when the document is cut. -/
def truncMarker : String := "\n\n[Document truncated for processing...]"

/-- The truncation step of `generate_insights`:
`if len(document_text) > max_chars: document_text = document_text[:max_chars] + marker`. -/
def truncateDoc (document_text : String) : String :=
  if pyLen document_text > max_chars then pyTake document_text max_chars ++ truncMarker
  else document_text

/-- The part of the prompt f-string before the document text, including
the embedded question. -/
def promptIntro (question : String) : String :=
  "You are a helpful AI assistant that analyzes documents and provides clear, detailed insights.\n\nRead the following document carefully and answer this question: "
  ++ question ++ "\n\nDocument:\n"

/-- The part of the prompt f-string after the document text. -/
def promptOutro : String :=
  "\n\nPlease provide a comprehensive answer based only on the information in the document. If the document doesn't contain enough information to answer the question, say so clearly."

/-- The prompt assembled by `generate_insights`: the fixed template
around the (possibly truncated) document text and the verbatim question. -/
def buildPrompt (document_text question : String) : String :=
  promptIntro question ++ truncateDoc document_text ++ promptOutro

/-- The invalid-API-key message (`except openai.error.AuthenticationError`). -/
def authErrorMsg : String :=
  "❌ Invalid API key. Please check your OpenAI API key and try again."

/-- The rate-limit message (`except openai.error.RateLimitError`). -/
def rateLimitMsg : String :=
  "❌ Rate limit exceeded. Please check your API quota or try again later."

/-- The invalid-request message (`except openai.error.InvalidRequestError as e`). -/
def invalidRequestMsg (e : String) : String := "❌ Invalid request: " ++ e

/-- The generic failure message (`except Exception as e`). -/
def genericErrorMsg (e : String) : String := "❌ Error generating insights: " ++ e

/-- `generate_insights(document_text, question, api_key, model_name, temp)`:
assembles the prompt, calls the service (here: consults the `service`
oracle on the assembled prompt), and maps each exception through the
`except` clauses in program order.  `Except.error` would mean an
exception escaping the function. -/
def generate_insights (document_text question _api_key _model_name : String)
    (_temp : ℚ) (service : String → ApiOutcome) : Except PyExc String :=
  match apiCall (service (buildPrompt document_text question)) with
  | Except.ok content => Except.ok content
  | Except.error e =>
    if catchesAuthentication e then Except.ok authErrorMsg
    else if catchesRateLimit e then Except.ok rateLimitMsg
    else if catchesInvalidRequest e then Except.ok (invalidRequestMsg (excStr e))
    else if catchesException e then Except.ok (genericErrorMsg (excStr e))
    else Except.error e

/-- Outcome of handing the file bytes to the external PDF parsing
library (`PdfReader` plus `page.extract_text()` on every page): the
per-page texts in page order, or a raised exception. -/
inductive PdfParse
  | pages (texts : List String)
  | raised (e : String)

/-- Outcome of the external DOCX parsing library (`DocxDocument` plus
`para.text` on every paragraph): the paragraph texts in document
order, or a raised exception. -/
inductive DocxParse
  | paragraphs (texts : List String)
  | raised (e : String)

/-- The runtime environment the extractor consults: whether each
optional parsing library imported, and what the library returns on the
uploaded bytes. -/
structure ParserEnv where
  pdfAvailable : Bool
  docxAvailable : Bool
  pdfParse : PdfParse
  docxParse : DocxParse

/-- The page-concatenation loop of `extract_text_from_pdf`:
`text = ""` then `text += page.extract_text() + "\n"` per page. -/
def pdfPagesText (texts : List String) : String :=
  List.foldl (fun acc t => acc ++ t ++ "\n") "" texts

/-- `extract_text_from_pdf(file_bytes)`: unavailable-library message,
else the newline-terminated page concatenation stripped, with any
parser exception turned into an error string. -/
def extract_text_from_pdf (available : Bool) (parsed : PdfParse) : String :=
  if !available then "PDF support not available. Please install PyPDF2."
  else
    match parsed with
    | .pages texts => pyStrip (pdfPagesText texts)
    | .raised e => "Error extracting PDF: " ++ e

/-- `extract_text_from_docx(file_bytes)`: unavailable-library message,
else `"\n".join(paragraph texts)` stripped, with any parser exception
turned into an error string. -/
def extract_text_from_docx (available : Bool) (parsed : DocxParse) : String :=
  if !available then "DOCX support not available. Please install python-docx."
  else
    match parsed with
    | .paragraphs texts => pyStrip (pyJoin "\n" texts)
    | .raised e => "Error extracting DOCX: " ++ e

/-- `bytes.decode('utf-8', errors='ignore')` as the fallible step of
`extract_text_from_txt`; with the ignore handler the decode always
succeeds (undecodable sequences are dropped, never raised on). -/
def bytesDecodeUtf8Ignore (file_bytes : List Nat) : Except PyExc String :=
  Except.ok ⟨utf8DecodeIgnore file_bytes⟩

/-- `extract_text_from_txt(file_bytes)`: decode as UTF-8 ignoring
undecodable sequences, strip; the `except` clause would wrap a raised
exception. -/
def extract_text_from_txt (file_bytes : List Nat) : String :=
  match bytesDecodeUtf8Ignore file_bytes with
  | Except.ok s => pyStrip s
  | Except.error e => "Error extracting TXT: " ++ excStr e

/-- An uploaded file: filename, declared MIME type, raw bytes. -/
structure UploadedFile where
  name : String
  type : String
  bytes : List Nat

/-- The branch `extract_text` selects. -/
inductive Route
  | pdf
  | docx
  | txt
  | unsupported
deriving DecidableEq

/-- The dispatch chain of `extract_text`, in program order: PDF when
the MIME type is `application/pdf` or the name ends in `.pdf`, then
DOCX, then plain text, else unsupported. -/
def route (f : UploadedFile) : Route :=
  if f.type = "application/pdf" || pyEndsWith f.name ".pdf" then .pdf
  else if f.type = "application/vnd.openxmlformats-officedocument.wordprocessingml.document"
      || pyEndsWith f.name ".docx" then .docx
  else if f.type = "text/plain" || pyEndsWith f.name ".txt" then .txt
  else .unsupported

/-- The unsupported-format message of `extract_text`. -/
def unsupportedMsg : String :=
  "Unsupported file format. Please upload PDF, DOCX, or TXT files."

/-- `extract_text(uploaded_file)`: dispatch on MIME type / extension to
the type-specific extractor; exactly one extractor runs, none on the
unsupported branch. -/
def extract_text (env : ParserEnv) (f : UploadedFile) : String :=
  match route f with
  | .pdf => extract_text_from_pdf env.pdfAvailable env.pdfParse
  | .docx => extract_text_from_docx env.docxAvailable env.docxParse
  | .txt => extract_text_from_txt f.bytes
  | .unsupported => unsupportedMsg

/-- The success test the UI applies to an extraction result (line 242):
`if document_text and not document_text.startswith("Error") and not
document_text.startswith("Unsupported")`. -/
def classifiedSuccess (s : String) : Bool :=
  !s.data.isEmpty && !pyStartsWith s "Error" && !pyStartsWith s "Unsupported"

/-- The line of 80 equals signs in the plain-text report. -/
def eqLine : String := ⟨List.replicate 80 '='⟩

/-- The downloadable plain-text report (`result_text`): document name,
question, timestamp, full insights, and a 2000-character excerpt of
the document text. -/
def result_text (filename question ts insights document_text : String) : String :=
  "Document: " ++ filename ++ "\nQuestion: " ++ question ++ "\nGenerated: " ++ ts
  ++ "\n\n" ++ eqLine ++ "\n\nINSIGHTS:\n\n" ++ insights ++ "\n\n" ++ eqLine
  ++ "\n\nDocument Text (excerpt):\n" ++ pyTake document_text 2000 ++ "...\n"

/-- The downloadable markdown report (`markdown_text`): a markdown
document with headers holding document name, question, timestamp and
the full insights. -/
def markdown_text (filename question ts insights : String) : String :=
  "# Document Insights" ++ "\n\n**Document:** " ++ filename ++ "  \n**Question:** "
  ++ question ++ "  \n**Generated:** " ++ ts ++ "\n\n---\n\n" ++ "## Insights"
  ++ "\n\n" ++ insights ++ "\n\n---\n\n*Generated by Document Insights Generator*\n"

-- ## Helper lemmas about the string model

theorem strAppend_empty (a : String) : a ++ "" = a := by
  apply strExt; simp [strData_append]

theorem take_length_append (t y : List Char) : (t ++ y).take t.length = t := by
  induction t with
  | nil => simp
  | cons a t ih => simp [ih]

theorem isSubL_of_isPrefixL {t s : List Char} (h : isPrefixL t s = true) :
    isSubL t s = true := by
  cases s with
  | nil => simpa [isSubL] using h
  | cons c s => simp [isSubL, h]

theorem isSubL_here (t y : List Char) : isSubL t (t ++ y) = true :=
  isSubL_of_isPrefixL (by simp [isPrefixL, take_length_append])

theorem isSubL_append_left {t s : List Char} (x : List Char) (h : isSubL t s = true) :
    isSubL t (x ++ s) = true := by
  induction x with
  | nil => simpa using h
  | cons c x ih => simp [isSubL, ih]

theorem take_append_le {α : Type} (n : Nat) (l₁ l₂ : List α) (h : n ≤ l₁.length) :
    (l₁ ++ l₂).take n = l₁.take n := by
  induction l₁ generalizing n with
  | nil => simp [Nat.le_zero.mp h]
  | cons a l ih =>
    cases n with
    | zero => simp
    | succ n => simp [ih n (Nat.le_of_succ_le_succ h)]

theorem pyStartsWith_append (p e t : String) (h : t.data.length ≤ p.data.length) :
    pyStartsWith (p ++ e) t = pyStartsWith p t := by
  simp only [pyStartsWith, strData_append]
  rw [take_append_le _ _ _ h]

theorem ne_of_startsWith {x y : String} (t : String) (hx : pyStartsWith x t = false)
    (hy : pyStartsWith y t = true) : x ≠ y := by
  intro h
  rw [h, hy] at hx
  exact Bool.noConfusion hx

theorem dropWhile_append_all {p : Char → Bool} :
    ∀ (l m : List Char), (∀ x ∈ l, p x = true) →
      List.dropWhile p (l ++ m) = List.dropWhile p m := by
  intro l m h
  induction l with
  | nil => simp
  | cons a l ih =>
    have ha : p a = true := h a (List.mem_cons_self a l)
    simp only [List.cons_append, List.dropWhile_cons, ha, if_true]
    exact ih fun x hx => h x (List.mem_cons_of_mem a hx)

theorem dropWhile_append_ne_nil {p : Char → Bool} :
    ∀ (l m : List Char), List.dropWhile p l ≠ [] →
      List.dropWhile p (l ++ m) = List.dropWhile p l ++ m := by
  intro l m h
  induction l with
  | nil => simp at h
  | cons a l ih =>
    by_cases ha : p a = true
    · simp only [List.cons_append, List.dropWhile_cons, ha, if_true] at h ⊢
      exact ih h
    · have ha' : p a = false := by simpa using ha
      simp [List.dropWhile_cons, ha']

theorem pyStripL_append_nl (l : List Char) : pyStripL (l ++ ['\n']) = pyStripL l := by
  have hnl : isPySpace '\n' = true := by decide
  by_cases h : List.dropWhile isPySpace l = []
  · have hall : ∀ x ∈ l, isPySpace x = true := List.dropWhile_eq_nil_iff.mp h
    have h1 : List.dropWhile isPySpace (l ++ ['\n']) = [] := by
      rw [dropWhile_append_all l ['\n'] hall]
      simp [List.dropWhile_cons, hnl]
    simp [pyStripL, h, h1]
  · have h1 : List.dropWhile isPySpace (l ++ ['\n']) =
        List.dropWhile isPySpace l ++ ['\n'] := dropWhile_append_ne_nil l ['\n'] h
    simp only [pyStripL, h1, List.reverse_append, List.reverse_cons, List.reverse_nil,
      List.nil_append, List.singleton_append, List.dropWhile_cons, hnl, if_true]

theorem pyStrip_append_nl (s : String) : pyStrip (s ++ "\n") = pyStrip s := by
  apply strExt
  have : (s ++ "\n").data = s.data ++ ['\n'] := strData_append s "\n"
  simp [pyStrip, this, pyStripL_append_nl]

/-- The page texts each followed by a newline, concatenated: the loop
invariant shape of `extract_text_from_pdf`. -/
def concatNl : List String → String
  | [] => ""
  | t :: rest => t ++ "\n" ++ concatNl rest

theorem foldl_concatNl (ts : List String) :
    ∀ a, List.foldl (fun acc t => acc ++ t ++ "\n") a ts = a ++ concatNl ts := by
  induction ts with
  | nil => intro a; simp [concatNl, strAppend_empty]
  | cons t rest ih =>
    intro a
    rw [List.foldl_cons, ih]
    simp only [concatNl]
    apply strExt
    simp [strData_append, List.append_assoc]

theorem concatNl_eq (t : String) (ts : List String) :
    concatNl (t :: ts) = pyJoin "\n" (t :: ts) ++ "\n" := by
  induction ts generalizing t with
  | nil => simp [concatNl, pyJoin, strAppend_empty]
  | cons u rest ih =>
    calc concatNl (t :: u :: rest) = t ++ "\n" ++ concatNl (u :: rest) := rfl
    _ = t ++ "\n" ++ (pyJoin "\n" (u :: rest) ++ "\n") := by rw [ih u]
    _ = pyJoin "\n" (t :: u :: rest) ++ "\n" := by
        apply strExt
        simp [pyJoin, strData_append, List.append_assoc]

/-- The first and last character (when present) are not whitespace:
what "leading/trailing whitespace trimmed" means. -/
def noEdgeSpace (l : List Char) : Bool :=
  (match l.head? with
   | none => true
   | some c => !isPySpace c)
  && (match l.getLast? with
      | none => true
      | some c => !isPySpace c)

theorem dropWhile_head_not {p : Char → Bool} :
    ∀ (l : List Char) (c : Char), (l.dropWhile p).head? = some c → p c = false := by
  intro l
  induction l with
  | nil => intro c h; simp at h
  | cons a l ih =>
    intro c h
    by_cases ha : p a = true
    · rw [List.dropWhile_cons, if_pos ha] at h
      exact ih c h
    · have ha' : p a = false := by simpa using ha
      rw [List.dropWhile_cons, if_neg (by simp [ha'])] at h
      simp at h
      rw [← h]
      exact ha'

theorem pyStripL_head_not (l : List Char) (c : Char)
    (h : (pyStripL l).head? = some c) : isPySpace c = false := by
  unfold pyStripL at h
  rw [List.head?_reverse] at h
  obtain ⟨x, hx⟩ :=
    List.dropWhile_suffix (l := (l.dropWhile isPySpace).reverse) isPySpace
  have h2 : (l.dropWhile isPySpace).reverse.getLast? = some c := by
    rw [← hx, List.getLast?_append, h]
    rfl
  rw [List.getLast?_reverse] at h2
  exact dropWhile_head_not l c h2

theorem pyStripL_getLast_not (l : List Char) (c : Char)
    (h : (pyStripL l).getLast? = some c) : isPySpace c = false := by
  unfold pyStripL at h
  rw [List.getLast?_reverse] at h
  exact dropWhile_head_not _ c h

theorem noEdgeSpace_pyStripL (l : List Char) : noEdgeSpace (pyStripL l) = true := by
  unfold noEdgeSpace
  rw [Bool.and_eq_true]
  constructor
  · cases hh : (pyStripL l).head? with
    | none => rfl
    | some c => simp [pyStripL_head_not l c hh]
  · cases hh : (pyStripL l).getLast? with
    | none => rfl
    | some c => simp [pyStripL_getLast_not l c hh]

-- ## Claim theorems

/-- Claim C1: for every document text longer than 12,000 characters,
the prompt assembled by generate_insights embeds exactly the first
12,000 characters of the input followed by the truncation marker and
nothing else of the document, and its length is bounded by 12,000 plus
the marker length plus the fixed template overhead including the
question. -/
theorem c1_truncated_prompt (doc q : String) (h : pyLen doc > max_chars) :
    buildPrompt doc q = promptIntro q ++ (pyTake doc max_chars ++ truncMarker) ++ promptOutro
    ∧ pyLen (buildPrompt doc q)
        ≤ max_chars + pyLen truncMarker + (pyLen (promptIntro q) + pyLen promptOutro) := by
  have ht : truncateDoc doc = pyTake doc max_chars ++ truncMarker := by
    unfold truncateDoc
    rw [if_pos h]
  constructor
  · rw [buildPrompt, ht]
  · rw [buildPrompt, ht]
    rw [pyLen_append, pyLen_append, pyLen_append, pyLen_take]
    have hmin : min max_chars (pyLen doc) = max_chars := Nat.min_eq_left (Nat.le_of_lt h)
    omega

/-- A concrete document of 12,001 characters, for the C1 witness. -/
def bigDoc : String := ⟨List.replicate 12001 'a'⟩

theorem c1_truncated_prompt_witness :
    pyLen bigDoc > max_chars
    ∧ pyLen (buildPrompt bigDoc "Q")
        ≤ max_chars + pyLen truncMarker + (pyLen (promptIntro "Q") + pyLen promptOutro) := by
  have h : pyLen bigDoc > max_chars := by
    show max_chars < (List.replicate 12001 'a').length
    rw [List.length_replicate]
    decide
  exact ⟨h, (c1_truncated_prompt bigDoc "Q" h).2⟩

/-- Claim C2 as stated is false: the prompt can contain the truncation
marker even for a short document, namely when the document text itself
contains (here: is) the marker.  The document below is 41 characters
long, well under 12,000, yet the assembled prompt contains the
marker. -/
theorem c2_counterexample :
    pyLen truncMarker ≤ max_chars
    ∧ isSubstr truncMarker (buildPrompt truncMarker "Q") = true := by
  constructor
  · decide
  · have h : truncateDoc truncMarker = truncMarker := by
      unfold truncateDoc
      rw [if_neg (by decide)]
    rw [buildPrompt, h, isSubstr, strAppend_assoc, strData_append, strData_append]
    exact isSubL_append_left _ (isSubL_here _ _)

/-- Claim C2 amended: for every document text of length at most 12,000,
the prompt is exactly the fixed template around the unmodified
document text — the document appears verbatim and no truncation marker
is appended by the builder (the marker can still occur as a substring
when the document or question happens to contain it, or across a
template boundary). -/
theorem c2_short_doc_verbatim (doc q : String) (h : pyLen doc ≤ max_chars) :
    buildPrompt doc q = promptIntro q ++ doc ++ promptOutro
    ∧ isSubstr doc (buildPrompt doc q) = true := by
  have ht : truncateDoc doc = doc := by
    unfold truncateDoc
    rw [if_neg (by omega)]
  have he : buildPrompt doc q = promptIntro q ++ doc ++ promptOutro := by
    rw [buildPrompt, ht]
  refine ⟨he, ?_⟩
  rw [he, isSubstr, strAppend_assoc, strData_append, strData_append]
  exact isSubL_append_left _ (isSubL_here _ _)

theorem c2_short_doc_verbatim_witness :
    pyLen "hello" ≤ max_chars
    ∧ buildPrompt "hello" "Q" = promptIntro "Q" ++ "hello" ++ promptOutro
    ∧ isSubstr "hello" (buildPrompt "hello" "Q") = true := by
  have h : pyLen "hello" ≤ max_chars := by decide
  exact ⟨h, (c2_short_doc_verbatim "hello" "Q" h).1, (c2_short_doc_verbatim "hello" "Q" h).2⟩

/-- Claim C3: the plain-text extraction never raises: for every byte
sequence it returns the UTF-8 decode of the bytes with undecodable
sequences dropped and whitespace trimmed from both ends; the result
may be empty, undecodable bytes vanish, and valid multi-byte
sequences decode (two concrete checks). -/
theorem c3_txt_total :
    (∀ file_bytes : List Nat,
        extract_text_from_txt file_bytes = pyStrip ⟨utf8DecodeIgnore file_bytes⟩
        ∧ noEdgeSpace (extract_text_from_txt file_bytes).data = true)
    ∧ extract_text_from_txt [] = ""
    ∧ extract_text_from_txt [0xFF, 0x68, 0x69] = "hi"
    ∧ extract_text_from_txt [0x20, 0x68, 0x69, 0x0A] = "hi"
    ∧ extract_text_from_txt [0xC3, 0xA9] = "é" := by
  refine ⟨fun file_bytes => ⟨rfl, ?_⟩, by decide, by decide, by decide, by decide⟩
  show noEdgeSpace (pyStrip ⟨utf8DecodeIgnore file_bytes⟩).data = true
  exact noEdgeSpace_pyStripL _

/-- Claim C4: generate_insights never raises past its boundary: for
every input and every service outcome — success or any raised
exception — it returns `Except.ok` with a string, never
`Except.error`. -/
theorem c4_never_raises (doc q key mdl : String) (temp : ℚ)
    (service : String → ApiOutcome) :
    ∃ s : String, generate_insights doc q key mdl temp service = Except.ok s := by
  cases hs : service (buildPrompt doc q) with
  | success txt =>
    exact ⟨txt, by rw [generate_insights, hs]; rfl⟩
  | raised e =>
    cases e with
    | authentication => exact ⟨authErrorMsg, by rw [generate_insights, hs]; rfl⟩
    | rateLimit => exact ⟨rateLimitMsg, by rw [generate_insights, hs]; rfl⟩
    | invalidRequest m =>
      exact ⟨invalidRequestMsg m, by rw [generate_insights, hs]; rfl⟩
    | other m =>
      exact ⟨genericErrorMsg m, by rw [generate_insights, hs]; rfl⟩

/-- Claim C5: an authentication failure from the service yields exactly
the invalid-API-key message; each of the four error kinds maps to its
own message, and the four messages are pairwise distinct for every
exception detail, never collapsed. -/
theorem c5_error_taxonomy (doc q key mdl : String) (temp : ℚ) (e1 e2 : String) :
    generate_insights doc q key mdl temp
        (fun _ => ApiOutcome.raised PyExc.authentication) = Except.ok authErrorMsg
    ∧ generate_insights doc q key mdl temp
        (fun _ => ApiOutcome.raised PyExc.rateLimit) = Except.ok rateLimitMsg
    ∧ generate_insights doc q key mdl temp
        (fun _ => ApiOutcome.raised (PyExc.invalidRequest e1))
        = Except.ok (invalidRequestMsg e1)
    ∧ generate_insights doc q key mdl temp
        (fun _ => ApiOutcome.raised (PyExc.other e1)) = Except.ok (genericErrorMsg e1)
    ∧ authErrorMsg ≠ rateLimitMsg
    ∧ authErrorMsg ≠ invalidRequestMsg e1
    ∧ authErrorMsg ≠ genericErrorMsg e1
    ∧ rateLimitMsg ≠ invalidRequestMsg e1
    ∧ rateLimitMsg ≠ genericErrorMsg e1
    ∧ invalidRequestMsg e1 ≠ genericErrorMsg e2 := by
  refine ⟨rfl, rfl, rfl, rfl, by decide, ?_, ?_, ?_, ?_, ?_⟩
  · exact ne_of_startsWith "❌ Invalid r" (by decide)
      (by rw [invalidRequestMsg, pyStartsWith_append _ _ _ (by decide)]; decide)
  · exact ne_of_startsWith "❌ E" (by decide)
      (by rw [genericErrorMsg, pyStartsWith_append _ _ _ (by decide)]; decide)
  · exact ne_of_startsWith "❌ I" (by decide)
      (by rw [invalidRequestMsg, pyStartsWith_append _ _ _ (by decide)]; decide)
  · exact ne_of_startsWith "❌ E" (by decide)
      (by rw [genericErrorMsg, pyStartsWith_append _ _ _ (by decide)]; decide)
  · exact (ne_of_startsWith "❌ I"
      (by rw [genericErrorMsg, pyStartsWith_append _ _ _ (by decide)]; decide)
      (by rw [invalidRequestMsg, pyStartsWith_append _ _ _ (by decide)]; decide)).symm

/-- Claim C6: a file whose MIME type is none of the three supported
types and whose name ends in none of the three supported extensions is
routed to the unsupported branch — no type-specific extractor runs —
and extract_text returns the unsupported-format message naming the
allowed set. -/
theorem c6_unsupported_format (env : ParserEnv) (f : UploadedFile)
    (h1 : f.type ≠ "application/pdf")
    (h2 : f.type ≠ "application/vnd.openxmlformats-officedocument.wordprocessingml.document")
    (h3 : f.type ≠ "text/plain")
    (h4 : pyEndsWith f.name ".pdf" = false)
    (h5 : pyEndsWith f.name ".docx" = false)
    (h6 : pyEndsWith f.name ".txt" = false) :
    route f = Route.unsupported ∧ extract_text env f = unsupportedMsg := by
  have hr : route f = Route.unsupported := by
    unfold route
    rw [if_neg, if_neg, if_neg]
    · simp [h3, h6]
    · simp [h2, h5]
    · simp [h1, h4]
  exact ⟨hr, by rw [extract_text, hr]⟩

/-- A parser environment where both libraries imported and parse cleanly. -/
def envBoth : ParserEnv :=
  ⟨true, true, PdfParse.pages ["page"], DocxParse.paragraphs ["para"]⟩

theorem c6_unsupported_format_witness :
    route ⟨"notes.md", "text/markdown", []⟩ = Route.unsupported
    ∧ extract_text envBoth ⟨"notes.md", "text/markdown", []⟩ = unsupportedMsg :=
  c6_unsupported_format envBoth ⟨"notes.md", "text/markdown", []⟩
    (by decide) (by decide) (by decide) (by decide) (by decide) (by decide)

/-- Claim C7: on a well-formed PDF (library present, no exception)
whose pages yield the given texts, extract_text_from_pdf returns the
page texts joined by newlines in page order, with the final result
stripped of leading and trailing whitespace. -/
theorem c7_pdf_page_join (texts : List String) :
    extract_text_from_pdf true (PdfParse.pages texts)
      = pyStrip (pyJoin "\n" texts) := by
  show pyStrip (pdfPagesText texts) = pyStrip (pyJoin "\n" texts)
  cases texts with
  | nil => rfl
  | cons t rest =>
    unfold pdfPagesText
    rw [foldl_concatNl, concatNl_eq]
    have hemp : ("" : String) ++ (pyJoin "\n" (t :: rest) ++ "\n")
        = pyJoin "\n" (t :: rest) ++ "\n" := by
      apply strExt
      rw [strData_append]
      rfl
    rw [hemp, pyStrip_append_nl]

/-- Claim C9: the UI success test accepts a result exactly when it is
non-empty and starts with neither "Error" nor "Unsupported"; the two
capability-unavailable messages pass that test, so with the library
absent extract_text hands the UI the unavailable message as a
successfully extracted document text. -/
theorem c9_unavailable_classified_success :
    (∀ s : String, classifiedSuccess s = true
        ↔ s.data ≠ [] ∧ pyStartsWith s "Error" = false
          ∧ pyStartsWith s "Unsupported" = false)
    ∧ (∀ p : PdfParse, extract_text_from_pdf false p
        = "PDF support not available. Please install PyPDF2.")
    ∧ (∀ d : DocxParse, extract_text_from_docx false d
        = "DOCX support not available. Please install python-docx.")
    ∧ classifiedSuccess "PDF support not available. Please install PyPDF2." = true
    ∧ classifiedSuccess "DOCX support not available. Please install python-docx." = true
    ∧ (∀ (env : ParserEnv) (f : UploadedFile), env.pdfAvailable = false →
        route f = Route.pdf →
          extract_text env f = "PDF support not available. Please install PyPDF2."
          ∧ classifiedSuccess (extract_text env f) = true) := by
  refine ⟨?_, fun p => rfl, fun d => rfl, by decide, by decide, ?_⟩
  · intro s
    simp [classifiedSuccess, Bool.and_eq_true, Bool.not_eq_true',
      List.isEmpty_iff, and_assoc]
  · intro env f hav hr
    have he : extract_text env f
        = "PDF support not available. Please install PyPDF2." := by
      rw [extract_text, hr]
      show extract_text_from_pdf env.pdfAvailable env.pdfParse = _
      rw [hav]
      rfl
    exact ⟨he, by rw [he]; decide⟩

theorem c9_unavailable_classified_success_witness :
    extract_text ⟨false, true, PdfParse.pages ["page"], DocxParse.paragraphs ["para"]⟩
        ⟨"doc.pdf", "application/pdf", []⟩
      = "PDF support not available. Please install PyPDF2."
    ∧ classifiedSuccess (extract_text
        ⟨false, true, PdfParse.pages ["page"], DocxParse.paragraphs ["para"]⟩
        ⟨"doc.pdf", "application/pdf", []⟩) = true :=
  (c9_unavailable_classified_success.2.2.2.2.2
    ⟨false, true, PdfParse.pages ["page"], DocxParse.paragraphs ["para"]⟩
    ⟨"doc.pdf", "application/pdf", []⟩ rfl (by decide))

/-- Claim C10: dispatch checks PDF first, so a filename ending in
".pdf" selects the PDF extractor whatever the declared MIME type, and
a file matching both the PDF and the DOCX criteria is routed to the
PDF extractor. -/
theorem c10_pdf_first_dispatch (env : ParserEnv) (f : UploadedFile) :
    (pyEndsWith f.name ".pdf" = true →
      route f = Route.pdf
      ∧ extract_text env f = extract_text_from_pdf env.pdfAvailable env.pdfParse)
    ∧ ((f.type = "application/pdf" ∨ pyEndsWith f.name ".pdf" = true) →
        (f.type = "application/vnd.openxmlformats-officedocument.wordprocessingml.document"
            ∨ pyEndsWith f.name ".docx" = true) →
          route f = Route.pdf) := by
  constructor
  · intro h
    have hr : route f = Route.pdf := by
      unfold route
      rw [if_pos]
      simp [h]
    exact ⟨hr, by rw [extract_text, hr]⟩
  · intro h1 _h2
    unfold route
    rw [if_pos]
    rcases h1 with h1 | h1 <;> simp [h1]

/-- A file matching both the PDF criterion (extension) and the DOCX
criterion (declared MIME type), for the C10 witness. -/
def pdfNamedDocxTyped : UploadedFile :=
  ⟨"report.pdf",
   "application/vnd.openxmlformats-officedocument.wordprocessingml.document", []⟩

theorem c10_pdf_first_dispatch_witness :
    route pdfNamedDocxTyped = Route.pdf
    ∧ extract_text envBoth pdfNamedDocxTyped
        = extract_text_from_pdf envBoth.pdfAvailable envBoth.pdfParse :=
  (c10_pdf_first_dispatch envBoth pdfNamedDocxTyped).1 (by decide)

set_option maxRecDepth 8000 in
/-- Claim C8 as stated is false: the markdown report omits the
2000-character excerpt of the source document text that the plain-text
report carries.  Concretely, with document text "XYZZYDOC" the
plain-text report contains the excerpt but the markdown report does
not contain it (the other fields are all present in both). -/
theorem c8_counterexample :
    isSubstr (pyTake "XYZZYDOC" 2000)
        (result_text "f.txt" "Q?" "2024-01-01 00:00:00" "Answer." "XYZZYDOC") = true
    ∧ isSubstr (pyTake "XYZZYDOC" 2000)
        (markdown_text "f.txt" "Q?" "2024-01-01 00:00:00" "Answer.") = false := by
  constructor
  · decide
  · decide

/-- Claim C8 amended: the markdown report is a markdown document with
headers containing the document name, the question, the generation
timestamp and the full insight text — but, unlike the plain-text
report (which carries all five fields), it omits the 2000-character
excerpt of the source document text.  The plain-text report contains
all five fields. -/
theorem c8_report_fields (filename question ts insights document_text : String) :
    isSubstr filename (markdown_text filename question ts insights) = true
    ∧ isSubstr question (markdown_text filename question ts insights) = true
    ∧ isSubstr ts (markdown_text filename question ts insights) = true
    ∧ isSubstr insights (markdown_text filename question ts insights) = true
    ∧ isSubstr "# Document Insights" (markdown_text filename question ts insights) = true
    ∧ isSubstr "## Insights" (markdown_text filename question ts insights) = true
    ∧ isSubstr filename (result_text filename question ts insights document_text) = true
    ∧ isSubstr question (result_text filename question ts insights document_text) = true
    ∧ isSubstr ts (result_text filename question ts insights document_text) = true
    ∧ isSubstr insights (result_text filename question ts insights document_text) = true
    ∧ isSubstr (pyTake document_text 2000)
        (result_text filename question ts insights document_text) = true := by
  refine ⟨?_, ?_, ?_, ?_, ?_, ?_, ?_, ?_, ?_, ?_, ?_⟩ <;>
    · simp only [isSubstr, markdown_text, result_text, strData_append,
        List.append_assoc]
      repeat
        first
        | exact isSubL_here _ _
        | apply isSubL_append_left
